import Mathlib

/-!
# Verification of the enterprise ESG evaluation engine

Shallow embedding of `src/enterprise_esg_engine.py` (class `EnterpriseESGEngine`).

Modelling conventions:
* Python numbers are modelled as exact rationals (`ℚ`).
* A Python dict access `d.get(k, default)` on an optional field is modelled by an
  `Option` field together with `Option.getD`.
* A bare subscript access `d[k]`, which raises `KeyError` when the key is absent,
  is modelled as an `Except String` computation that errors on `none`.
* The `try/except` boundary of `evaluate_enterprise` is modelled by running the
  `Except`-valued inner computation and replacing any error with the default
  evaluation record (`_get_default_evaluation`).
* `self.benchmarks` (loaded from a JSON file at startup) and `datetime.now()`
  are passed as explicit parameters (`bm : Benchmarks`, `now : String`).
* Python 3.7+ dicts iterate in insertion order, so the grade dictionary is
  modelled as an association list in the source's insertion order.
* `round(x, 1)` (Python banker's rounding to one decimal) is modelled by
  `round1`, round-half-to-even on the exact rational.
-/

/-- One entry of the Shinhan seven-grade system: minimum score, display color,
interest-rate discount in percentage points. -/
structure GradeCriteria where
  min : ℚ
  color : String
  rate_discount : ℚ
deriving DecidableEq, Repr

/-- `self.grade_system`, in the source's insertion order (descending minima). -/
def grade_system : List (String × GradeCriteria) :=
  [("A+", ⟨90, "#00D67A", 27/10⟩),
   ("A",  ⟨85, "#00C896", 22/10⟩),
   ("A-", ⟨80, "#00B386", 18/10⟩),
   ("B+", ⟨75, "#0072CE", 15/10⟩),
   ("B",  ⟨70, "#0046FF", 12/10⟩),
   ("B-", ⟨65, "#FFB800", 8/10⟩),
   ("C",  ⟨0,  "#FF4757", 4/10⟩)]

/-- An industry's E/S/G weight triple. -/
structure Weights where
  E : ℚ
  S : ℚ
  G : ℚ
deriving DecidableEq, Repr

/-- `self.industry_weights`. -/
def industry_weights : List (String × Weights) :=
  [("제조업", ⟨45/100, 30/100, 25/100⟩),
   ("금융업", ⟨25/100, 35/100, 40/100⟩),
   ("IT/서비스", ⟨30/100, 40/100, 30/100⟩)]

/-- `self.industry_weights.get(industry, {"E": 0.33, "S": 0.33, "G": 0.34})`. -/
def lookupWeights (industry : String) : Weights :=
  (industry_weights.lookup industry).getD ⟨33/100, 33/100, 34/100⟩

/-- `_determine_grade`'s loop over the grade dictionary: return the first grade
whose minimum the score meets. -/
def determineGradeAux (score : ℚ) : List (String × GradeCriteria) → String
  | [] => "C"
  | (g, c) :: rest => if score ≥ c.min then g else determineGradeAux score rest

/-- `_determine_grade(score)`. -/
def _determine_grade (score : ℚ) : String :=
  determineGradeAux score grade_system

/-- `_determine_grade` as an explicit decision ladder. -/
theorem determine_grade_eq (s : ℚ) :
    _determine_grade s =
      if 90 ≤ s then "A+"
      else if 85 ≤ s then "A"
      else if 80 ≤ s then "A-"
      else if 75 ≤ s then "B+"
      else if 70 ≤ s then "B"
      else if 65 ≤ s then "B-"
      else "C" := by
  simp only [_determine_grade, grade_system, determineGradeAux, ge_iff_le]
  rcases le_or_lt 90 s with h | h <;>
    rcases le_or_lt 85 s with h2 | h2 <;>
      rcases le_or_lt 80 s with h3 | h3 <;>
        rcases le_or_lt 75 s with h4 | h4 <;>
          rcases le_or_lt 70 s with h5 | h5 <;>
            rcases le_or_lt 65 s with h6 | h6 <;>
              rcases le_or_lt 0 s with h7 | h7 <;>
                simp_all

/-- The grade returned by `_determine_grade` is always a key of `grade_system`. -/
theorem determine_grade_mem (s : ℚ) :
    ∃ c, (grade_system.lookup (_determine_grade s)) = some c := by
  rw [determine_grade_eq]
  split_ifs <;> exact ⟨_, rfl⟩

/-! ## Company profile data model

Each raw metric is an `Option`: `none` models an absent dict key, read through
`.get(key, default)` in the source. -/

/-- The `environmental` block of a company profile. -/
structure EnvironmentalData where
  carbon_scope1 : Option ℚ
  carbon_scope2 : Option ℚ
  carbon_scope3 : Option ℚ
  renewable_energy_ratio : Option ℚ
  waste_recycling_rate : Option ℚ
  env_certifications : Option (List String)
deriving DecidableEq, Repr

/-- The `social` block of a company profile. -/
structure SocialData where
  diversity_ratio : Option ℚ
  accident_rate : Option ℚ
  customer_satisfaction : Option ℚ
  donation_ratio : Option ℚ
deriving DecidableEq, Repr

/-- The `governance` block of a company profile. -/
structure GovernanceData where
  independent_director_ratio : Option ℚ
  has_esg_committee : Option Bool
  ethics_violations : Option ℚ
  disclosure_score : Option ℚ
deriving DecidableEq, Repr

/-- The `compliance` block of a company profile. -/
structure ComplianceData where
  k_taxonomy_compliant : Option Bool
  tcfd_compliant : Option Bool
  gri_compliant : Option Bool
deriving DecidableEq, Repr

/-- The `basic_info` block; `name` and `industry` are accessed with bare
subscripts in the source, so a missing key raises. -/
structure BasicInfo where
  name : Option String
  industry : Option String
deriving DecidableEq, Repr

/-- The `financial` block of a company profile. -/
structure FinancialData where
  target_loan_amount : Option ℚ
deriving DecidableEq, Repr

/-- A whole `company_data` dict. A `none` block models an absent key, read
through `.get(key, {})` (or a bare subscript for `basic_info`). -/
structure CompanyData where
  basic_info : Option BasicInfo
  environmental : Option EnvironmentalData
  social : Option SocialData
  governance : Option GovernanceData
  compliance : Option ComplianceData
  financial : Option FinancialData
deriving DecidableEq, Repr

/-- The environmental block with every key absent (`{}`). -/
def emptyEnvData : EnvironmentalData := ⟨none, none, none, none, none, none⟩

/-- The social block with every key absent (`{}`). -/
def emptySocialData : SocialData := ⟨none, none, none, none⟩

/-- The governance block with every key absent (`{}`). -/
def emptyGovData : GovernanceData := ⟨none, none, none, none⟩

/-- The compliance block with every key absent (`{}`). -/
def emptyComplianceData : ComplianceData := ⟨none, none, none⟩

/-- One industry's benchmark record (from `industry_benchmarks` in the data
file); only `avg_carbon_intensity` is used by the engine. -/
structure IndustryBenchmark where
  avg_carbon_intensity : Option ℚ
deriving DecidableEq, Repr

/-- `self.benchmarks`, the industry → benchmark table loaded at startup. -/
abbrev Benchmarks : Type := List (String × IndustryBenchmark)

/-- `self.benchmarks.get(industry, {}).get('avg_carbon_intensity', 10000)`. -/
def benchmark_carbon (bm : Benchmarks) (industry : String) : ℚ :=
  (((List.lookup industry bm).getD ⟨none⟩).avg_carbon_intensity).getD 10000

/-! ## Sub-factor transforms (named so each sub-factor can be reasoned about
individually; each is used verbatim inside its evaluator). -/

/-- `carbon_total / benchmark_carbon if benchmark_carbon > 0 else 1`. -/
def carbon_ratio_of (carbon_total bc : ℚ) : ℚ :=
  if bc > 0 then carbon_total / bc else 1

/-- The carbon 4-band ladder (30 points max). -/
def carbon_score_of (carbon_ratio : ℚ) : ℚ :=
  if carbon_ratio < 7/10 then 30
  else if carbon_ratio < 1 then 20
  else if carbon_ratio < 13/10 then 10
  else 0

/-- `min(25, renewable_ratio * 50)`. -/
def renewable_score_of (renewable_ratio : ℚ) : ℚ := min 25 (renewable_ratio * 50)

/-- `min(25, recycling_rate * 25)`. -/
def recycling_score_of (recycling_rate : ℚ) : ℚ := min 25 (recycling_rate * 25)

/-- `min(20, len(certifications) * 10)`. -/
def cert_score_of (certifications : List String) : ℚ :=
  min 20 ((certifications.length : ℚ) * 10)

/-- `min(25, diversity_ratio * 50)`. -/
def diversity_score_of (diversity_ratio : ℚ) : ℚ := min 25 (diversity_ratio * 50)

/-- The accident-rate ladder (25 points max). -/
def safety_score_of (accident_rate : ℚ) : ℚ :=
  if accident_rate < 1/10 then 25
  else if accident_rate < 3/10 then 15
  else 5

/-- `min(25, (customer_satisfaction / 100) * 25)`. -/
def satisfaction_score_of (customer_satisfaction : ℚ) : ℚ :=
  min 25 (customer_satisfaction / 100 * 25)

/-- `min(25, donation_ratio * 1000)`. -/
def contribution_score_of (donation_ratio : ℚ) : ℚ := min 25 (donation_ratio * 1000)

/-- `min(30, independent_ratio * 50)`. -/
def independence_score_of (independent_ratio : ℚ) : ℚ := min 30 (independent_ratio * 50)

/-- `30 if has_esg_committee else 0`. -/
def esg_gov_score_of (has_esg_committee : Bool) : ℚ := if has_esg_committee then 30 else 0

/-- The ethics-violations ladder (20 points max). -/
def ethics_score_of (ethics_violations : ℚ) : ℚ :=
  if ethics_violations = 0 then 20
  else if ethics_violations < 3 then 10
  else 0

/-- `min(20, (disclosure_score / 100) * 20)`. -/
def transparency_score_of (disclosure_score : ℚ) : ℚ :=
  min 20 (disclosure_score / 100 * 20)

/-! ## Detail breakdown records

The source stores, per sub-factor, the raw/derived metric and the awarded
score. The only field we abstract is the `vs_benchmark` percent string of the
carbon detail: the source renders `(1-ratio)*100` (ratio below 1) or
`(ratio-1)*100` (otherwise) through `f"...:.1f%"`; we keep the exact signed
magnitude and an over-benchmark flag instead of the formatted text. -/

/-- `details['carbon_emission']`. -/
structure CarbonDetail where
  total : ℚ
  vs_benchmark_magnitude : ℚ
  vs_benchmark_over : Bool
  score : ℚ
deriving DecidableEq, Repr

/-- A `{raw value, score}` detail pair for a numeric raw metric. -/
structure RatioDetail where
  ratio : ℚ
  score : ℚ
deriving DecidableEq, Repr

/-- `details['certifications']`. -/
structure CertDetail where
  list : List String
  score : ℚ
deriving DecidableEq, Repr

/-- `details['esg_governance']`. -/
structure CommitteeDetail where
  has_committee : Bool
  score : ℚ
deriving DecidableEq, Repr

/-- The environmental detail breakdown. -/
structure EDetails where
  carbon_emission : CarbonDetail
  renewable_energy : RatioDetail
  resource_efficiency : RatioDetail
  certifications : CertDetail
deriving DecidableEq, Repr

/-- The social detail breakdown. -/
structure SDetails where
  diversity : RatioDetail
  safety : RatioDetail
  customer : RatioDetail
  contribution : RatioDetail
deriving DecidableEq, Repr

/-- The governance detail breakdown. -/
structure GDetails where
  board_independence : RatioDetail
  esg_governance : CommitteeDetail
  ethics : RatioDetail
  transparency : RatioDetail
deriving DecidableEq, Repr

/-! ## The three domain evaluators -/

/-- `_evaluate_environmental(data, industry)` → `(score, details)`. -/
def _evaluate_environmental (bm : Benchmarks) (data : CompanyData) (industry : String) :
    ℚ × EDetails :=
  let env_data := data.environmental.getD emptyEnvData
  let carbon_total :=
    env_data.carbon_scope1.getD 0 + env_data.carbon_scope2.getD 0 +
      env_data.carbon_scope3.getD 0
  let bc := benchmark_carbon bm industry
  let carbon_ratio := carbon_ratio_of carbon_total bc
  let carbon_score := carbon_score_of carbon_ratio
  let renewable_ratio := env_data.renewable_energy_ratio.getD 0
  let renewable_score := renewable_score_of renewable_ratio
  let recycling_rate := env_data.waste_recycling_rate.getD 0
  let recycling_score := recycling_score_of recycling_rate
  let certifications := env_data.env_certifications.getD []
  let cert_score := cert_score_of certifications
  (carbon_score + renewable_score + recycling_score + cert_score,
   { carbon_emission :=
       { total := carbon_total
         vs_benchmark_magnitude :=
           if carbon_ratio < 1 then (1 - carbon_ratio) * 100 else (carbon_ratio - 1) * 100
         vs_benchmark_over := decide (¬ carbon_ratio < 1)
         score := carbon_score }
     renewable_energy := { ratio := renewable_ratio, score := renewable_score }
     resource_efficiency := { ratio := recycling_rate, score := recycling_score }
     certifications := { list := certifications, score := cert_score } })

/-- `_evaluate_social(data, industry)` → `(score, details)`. -/
def _evaluate_social (data : CompanyData) (industry : String) : ℚ × SDetails :=
  let social_data := data.social.getD emptySocialData
  let diversity_ratio := social_data.diversity_ratio.getD 0
  let diversity_score := diversity_score_of diversity_ratio
  let accident_rate := social_data.accident_rate.getD (5/10)
  let safety_score := safety_score_of accident_rate
  let customer_satisfaction := social_data.customer_satisfaction.getD 0
  let satisfaction_score := satisfaction_score_of customer_satisfaction
  let donation_ratio := social_data.donation_ratio.getD 0
  let contribution_score := contribution_score_of donation_ratio
  (diversity_score + safety_score + satisfaction_score + contribution_score,
   { diversity := { ratio := diversity_ratio, score := diversity_score }
     safety := { ratio := accident_rate, score := safety_score }
     customer := { ratio := customer_satisfaction, score := satisfaction_score }
     contribution := { ratio := donation_ratio, score := contribution_score } })

/-- `_evaluate_governance(data, industry)` → `(score, details)`. -/
def _evaluate_governance (data : CompanyData) (industry : String) : ℚ × GDetails :=
  let gov_data := data.governance.getD emptyGovData
  let independent_ratio := gov_data.independent_director_ratio.getD 0
  let independence_score := independence_score_of independent_ratio
  let has_esg_committee := gov_data.has_esg_committee.getD false
  let esg_gov_score := esg_gov_score_of has_esg_committee
  let ethics_violations := gov_data.ethics_violations.getD 0
  let ethics_score := ethics_score_of ethics_violations
  let disclosure_score := gov_data.disclosure_score.getD 0
  let transparency_score := transparency_score_of disclosure_score
  (independence_score + esg_gov_score + ethics_score + transparency_score,
   { board_independence := { ratio := independent_ratio, score := independence_score }
     esg_governance := { has_committee := has_esg_committee, score := esg_gov_score }
     ethics := { ratio := ethics_violations, score := ethics_score }
     transparency := { ratio := disclosure_score, score := transparency_score } })

/-! ## Rounding, compliance, financial benefits, improvement areas -/

/-- Round-half-to-even to an integer, as Python's `round` on the exact value. -/
def roundHalfEven (q : ℚ) : ℤ :=
  if q - ⌊q⌋ = 1/2 then (if Even ⌊q⌋ then ⌊q⌋ else ⌊q⌋ + 1) else round q

/-- Python `round(x, 1)`. -/
def round1 (q : ℚ) : ℚ := (roundHalfEven (q * 10) : ℚ) / 10

/-- A value of the result's `compliance` dict: either a per-framework entry
`{compliant, status}` or the numeric `overall` entry. -/
inductive CValue where
  | std (compliant : Bool) (status : String)
  | num (value : ℚ)
deriving DecidableEq, Repr

/-- The result's `compliance` dict, as a key → value association list in
insertion order. -/
abbrev ComplianceDict : Type := List (String × CValue)

/-- `_evaluate_compliance(data)`. -/
def _evaluate_compliance (data : CompanyData) : ComplianceDict :=
  let compliance := data.compliance.getD emptyComplianceData
  let k_taxonomy := compliance.k_taxonomy_compliant.getD false
  let tcfd := compliance.tcfd_compliant.getD false
  let gri := compliance.gri_compliant.getD false
  let total_compliance :=
    (((if k_taxonomy then 1 else 0) + (if tcfd then 1 else 0) +
        (if gri then 1 else 0) : ℚ)) / 3 * 100
  [("K-Taxonomy", .std k_taxonomy (if k_taxonomy then "준수" else "미준수")),
   ("TCFD", .std tcfd (if tcfd then "준수" else "미준수")),
   ("GRI", .std gri (if gri then "준수" else "미준수")),
   ("overall", .num (round1 total_compliance))]

/-- The record returned by `_calculate_financial_benefits`. -/
structure FinancialBenefits where
  grade : String
  base_rate : ℚ
  discount_rate : ℚ
  final_rate : ℚ
  annual_savings : ℚ
  loan_amount : ℚ
deriving DecidableEq, Repr

/-- `_calculate_financial_benefits(grade, company_data)`. The bare subscript
`self.grade_system[grade]` raises `KeyError` for an unknown grade, hence the
`Except`. -/
def _calculate_financial_benefits (grade : String) (company_data : CompanyData) :
    Except String FinancialBenefits :=
  match grade_system.lookup grade with
  | none => .error "KeyError: grade"
  | some grade_info =>
    let loan_amount := ((company_data.financial.getD ⟨none⟩).target_loan_amount).getD 1000
    let base_rate : ℚ := 35/10
    let discount_rate := grade_info.rate_discount
    .ok { grade := grade
          base_rate := base_rate
          discount_rate := discount_rate
          final_rate := base_rate - discount_rate
          annual_savings := loan_amount * discount_rate / 100
          loan_amount := loan_amount }

/-- `_identify_improvement_areas(e_score, s_score, g_score)`. -/
def _identify_improvement_areas (e_score s_score g_score : ℚ) : List String :=
  let areas :=
    (if e_score < 70 then ["환경(E): 재생에너지 전환 및 탄소 감축 필요"] else []) ++
    (if s_score < 70 then ["사회(S): 다양성 증진 및 안전 관리 강화 필요"] else []) ++
    (if g_score < 70 then ["거버넌스(G): ESG 위원회 설립 및 투명성 제고 필요"] else [])
  if areas = [] then ["전 영역에서 우수한 성과를 보이고 있습니다."] else areas

/-! ## The evaluation result record and the evaluate operation -/

/-- The `scores` sub-dict of an evaluation result. -/
structure Scores where
  E : ℚ
  S : ℚ
  G : ℚ
  total : ℚ
deriving DecidableEq, Repr

/-- The `details` sub-dict; `none` models the empty `{}` of the default
result. -/
structure DetailBlocks where
  E : Option EDetails
  S : Option SDetails
  G : Option GDetails
deriving DecidableEq, Repr

/-- A full evaluation result dict. `financial_benefits = none` models the
default result's empty `{}`. -/
structure EvalResult where
  evaluation_date : String
  company : String
  industry : String
  scores : Scores
  details : DetailBlocks
  grade : String
  financial_benefits : Option FinancialBenefits
  compliance : ComplianceDict
  improvement_areas : List String
deriving DecidableEq, Repr

/-- `_get_default_evaluation()`; `now` is the `datetime.now().isoformat()`
timestamp. -/
def _get_default_evaluation (now : String) : EvalResult :=
  { evaluation_date := now
    company := "Unknown"
    industry := "Unknown"
    scores := { E := 0, S := 0, G := 0, total := 0 }
    details := { E := none, S := none, G := none }
    grade := "C"
    financial_benefits := none
    compliance := [("overall", .num 0)]
    improvement_areas := ["데이터 오류로 평가를 완료할 수 없습니다."] }

/-- The aggregation of `evaluate_enterprise`:
`e_score * weights["E"] + s_score * weights["S"] + g_score * weights["G"]`. -/
def weighted_total (weights : Weights) (e_score s_score g_score : ℚ) : ℚ :=
  e_score * weights.E + s_score * weights.S + g_score * weights.G

/-- The body of `evaluate_enterprise`'s `try` block: every bare dict access
that can raise `KeyError` is an `Except.error`. -/
def evaluateInner (bm : Benchmarks) (now : String) (company_data : CompanyData) :
    Except String EvalResult :=
  match company_data.basic_info with
  | none => .error "KeyError: basic_info"
  | some basic_info =>
    match basic_info.industry with
    | none => .error "KeyError: industry"
    | some industry =>
      let weights := lookupWeights industry
      let e := _evaluate_environmental bm company_data industry
      let s := _evaluate_social company_data industry
      let g := _evaluate_governance company_data industry
      let total_score := weighted_total weights e.1 s.1 g.1
      let grade := _determine_grade total_score
      let compliance_score := _evaluate_compliance company_data
      match basic_info.name with
      | none => .error "KeyError: name"
      | some name =>
        match _calculate_financial_benefits grade company_data with
        | .error msg => .error msg
        | .ok fb =>
          .ok { evaluation_date := now
                company := name
                industry := industry
                scores := { E := round1 e.1, S := round1 s.1, G := round1 g.1,
                            total := round1 total_score }
                details := { E := some e.2, S := some s.2, G := some g.2 }
                grade := grade
                financial_benefits := some fb
                compliance := compliance_score
                improvement_areas := _identify_improvement_areas e.1 s.1 g.1 }

/-- `evaluate_enterprise(company_data)`: run the `try` body and replace any
exception with the default evaluation. -/
def evaluate_enterprise (bm : Benchmarks) (now : String) (company_data : CompanyData) :
    EvalResult :=
  match evaluateInner bm now company_data with
  | .ok r => r
  | .error _ => _get_default_evaluation now

/-! ## Validity predicate and helper lemmas -/

/-- A present optional metric lies in `[lo, hi]` (nothing is required of an
absent one). -/
def OptRange (lo hi : ℚ) : Option ℚ → Prop
  | none => True
  | some q => lo ≤ q ∧ q ≤ hi

/-- A present optional metric is non-negative. -/
def OptNonneg : Option ℚ → Prop
  | none => True
  | some q => 0 ≤ q

/-- A valid company profile: raw metric values non-negative, ratios in
`[0, 1]`, survey scores in `[0, 100]`. -/
def ValidCompanyData (cd : CompanyData) : Prop :=
  OptNonneg (cd.environmental.getD emptyEnvData).carbon_scope1 ∧
  OptNonneg (cd.environmental.getD emptyEnvData).carbon_scope2 ∧
  OptNonneg (cd.environmental.getD emptyEnvData).carbon_scope3 ∧
  OptRange 0 1 (cd.environmental.getD emptyEnvData).renewable_energy_ratio ∧
  OptRange 0 1 (cd.environmental.getD emptyEnvData).waste_recycling_rate ∧
  OptRange 0 1 (cd.social.getD emptySocialData).diversity_ratio ∧
  OptNonneg (cd.social.getD emptySocialData).accident_rate ∧
  OptRange 0 100 (cd.social.getD emptySocialData).customer_satisfaction ∧
  OptRange 0 1 (cd.social.getD emptySocialData).donation_ratio ∧
  OptRange 0 1 (cd.governance.getD emptyGovData).independent_director_ratio ∧
  OptNonneg (cd.governance.getD emptyGovData).ethics_violations ∧
  OptRange 0 100 (cd.governance.getD emptyGovData).disclosure_score

theorem OptRange.getD_lower {lo hi d : ℚ} {o : Option ℚ} (h : OptRange lo hi o)
    (hd : lo ≤ d) : lo ≤ o.getD d := by
  cases o with
  | none => simpa using hd
  | some q => exact h.1

theorem OptNonneg.getD_nonneg {d : ℚ} {o : Option ℚ} (h : OptNonneg o)
    (hd : 0 ≤ d) : 0 ≤ o.getD d := by
  cases o with
  | none => simpa using hd
  | some q => exact h

/-- The four weight triples the engine can select all have non-negative
entries summing to `1`. -/
theorem lookupWeights_valid (ind : String) :
    0 ≤ (lookupWeights ind).E ∧ 0 ≤ (lookupWeights ind).S ∧ 0 ≤ (lookupWeights ind).G ∧
      (lookupWeights ind).E + (lookupWeights ind).S + (lookupWeights ind).G = 1 := by
  unfold lookupWeights industry_weights
  simp only [List.lookup]
  cases h1 : ind == "제조업" <;> cases h2 : ind == "금융업" <;>
    cases h3 : ind == "IT/서비스" <;> simp [h1, h2, h3] <;> norm_num

/-- Each band of the carbon ladder is between 0 and 30. -/
theorem carbon_score_of_bounds (r : ℚ) :
    0 ≤ carbon_score_of r ∧ carbon_score_of r ≤ 30 := by
  unfold carbon_score_of; split_ifs <;> norm_num

/-- Each band of the safety ladder is between 5 and 25. -/
theorem safety_score_of_bounds (r : ℚ) :
    5 ≤ safety_score_of r ∧ safety_score_of r ≤ 25 := by
  unfold safety_score_of; split_ifs <;> norm_num

/-- Each band of the ethics ladder is between 0 and 20. -/
theorem ethics_score_of_bounds (r : ℚ) :
    0 ≤ ethics_score_of r ∧ ethics_score_of r ≤ 20 := by
  unfold ethics_score_of; split_ifs <;> norm_num

/-- The committee score is 0 or 30. -/
theorem esg_gov_score_of_bounds (b : Bool) :
    0 ≤ esg_gov_score_of b ∧ esg_gov_score_of b ≤ 30 := by
  unfold esg_gov_score_of; cases b <;> norm_num

theorem renewable_score_of_bounds {r : ℚ} (h : 0 ≤ r) :
    0 ≤ renewable_score_of r ∧ renewable_score_of r ≤ 25 :=
  ⟨le_min (by norm_num) (mul_nonneg h (by norm_num)), min_le_left _ _⟩

theorem recycling_score_of_bounds {r : ℚ} (h : 0 ≤ r) :
    0 ≤ recycling_score_of r ∧ recycling_score_of r ≤ 25 :=
  ⟨le_min (by norm_num) (mul_nonneg h (by norm_num)), min_le_left _ _⟩

theorem cert_score_of_bounds (l : List String) :
    0 ≤ cert_score_of l ∧ cert_score_of l ≤ 20 :=
  ⟨le_min (by norm_num) (mul_nonneg (by positivity) (by norm_num)), min_le_left _ _⟩

theorem diversity_score_of_bounds {r : ℚ} (h : 0 ≤ r) :
    0 ≤ diversity_score_of r ∧ diversity_score_of r ≤ 25 :=
  ⟨le_min (by norm_num) (mul_nonneg h (by norm_num)), min_le_left _ _⟩

theorem satisfaction_score_of_bounds {r : ℚ} (h : 0 ≤ r) :
    0 ≤ satisfaction_score_of r ∧ satisfaction_score_of r ≤ 25 :=
  ⟨le_min (by norm_num) (mul_nonneg (div_nonneg h (by norm_num)) (by norm_num)),
   min_le_left _ _⟩

theorem contribution_score_of_bounds {r : ℚ} (h : 0 ≤ r) :
    0 ≤ contribution_score_of r ∧ contribution_score_of r ≤ 25 :=
  ⟨le_min (by norm_num) (mul_nonneg h (by norm_num)), min_le_left _ _⟩

theorem independence_score_of_bounds {r : ℚ} (h : 0 ≤ r) :
    0 ≤ independence_score_of r ∧ independence_score_of r ≤ 30 :=
  ⟨le_min (by norm_num) (mul_nonneg h (by norm_num)), min_le_left _ _⟩

theorem transparency_score_of_bounds {r : ℚ} (h : 0 ≤ r) :
    0 ≤ transparency_score_of r ∧ transparency_score_of r ≤ 20 :=
  ⟨le_min (by norm_num) (mul_nonneg (div_nonneg h (by norm_num)) (by norm_num)),
   min_le_left _ _⟩

theorem sum4_bounds_E {a b c d : ℚ} (ha : 0 ≤ a ∧ a ≤ 30) (hb : 0 ≤ b ∧ b ≤ 25)
    (hc : 0 ≤ c ∧ c ≤ 25) (hd : 0 ≤ d ∧ d ≤ 20) :
    0 ≤ a + b + c + d ∧ a + b + c + d ≤ 100 := by
  constructor <;> linarith [ha.1, ha.2, hb.1, hb.2, hc.1, hc.2, hd.1, hd.2]

theorem sum4_bounds_S {a b c d : ℚ} (ha : 0 ≤ a ∧ a ≤ 25) (hb : 5 ≤ b ∧ b ≤ 25)
    (hc : 0 ≤ c ∧ c ≤ 25) (hd : 0 ≤ d ∧ d ≤ 25) :
    0 ≤ a + b + c + d ∧ a + b + c + d ≤ 100 := by
  constructor <;> linarith [ha.1, ha.2, hb.1, hb.2, hc.1, hc.2, hd.1, hd.2]

theorem sum4_bounds_G {a b c d : ℚ} (ha : 0 ≤ a ∧ a ≤ 30) (hb : 0 ≤ b ∧ b ≤ 30)
    (hc : 0 ≤ c ∧ c ≤ 20) (hd : 0 ≤ d ∧ d ≤ 20) :
    0 ≤ a + b + c + d ∧ a + b + c + d ≤ 100 := by
  constructor <;> linarith [ha.1, ha.2, hb.1, hb.2, hc.1, hc.2, hd.1, hd.2]

/-- E sub-score bounds given non-negative raw ratios. -/
theorem env_score_bounds (bm : Benchmarks) (cd : CompanyData) (ind : String)
    (h1 : 0 ≤ (cd.environmental.getD emptyEnvData).renewable_energy_ratio.getD 0)
    (h2 : 0 ≤ (cd.environmental.getD emptyEnvData).waste_recycling_rate.getD 0) :
    0 ≤ (_evaluate_environmental bm cd ind).1 ∧
      (_evaluate_environmental bm cd ind).1 ≤ 100 := by
  simp only [_evaluate_environmental]
  exact sum4_bounds_E (carbon_score_of_bounds _) (renewable_score_of_bounds h1)
    (recycling_score_of_bounds h2) (cert_score_of_bounds _)

/-- S sub-score bounds given non-negative raw metrics. -/
theorem social_score_bounds (cd : CompanyData) (ind : String)
    (h1 : 0 ≤ (cd.social.getD emptySocialData).diversity_ratio.getD 0)
    (h2 : 0 ≤ (cd.social.getD emptySocialData).customer_satisfaction.getD 0)
    (h3 : 0 ≤ (cd.social.getD emptySocialData).donation_ratio.getD 0) :
    0 ≤ (_evaluate_social cd ind).1 ∧ (_evaluate_social cd ind).1 ≤ 100 := by
  simp only [_evaluate_social]
  exact sum4_bounds_S (diversity_score_of_bounds h1) (safety_score_of_bounds _)
    (satisfaction_score_of_bounds h2) (contribution_score_of_bounds h3)

/-- G sub-score bounds given non-negative raw metrics. -/
theorem governance_score_bounds (cd : CompanyData) (ind : String)
    (h1 : 0 ≤ (cd.governance.getD emptyGovData).independent_director_ratio.getD 0)
    (h2 : 0 ≤ (cd.governance.getD emptyGovData).disclosure_score.getD 0) :
    0 ≤ (_evaluate_governance cd ind).1 ∧ (_evaluate_governance cd ind).1 ≤ 100 := by
  simp only [_evaluate_governance]
  exact sum4_bounds_G (independence_score_of_bounds h1) (esg_gov_score_of_bounds _)
    (ethics_score_of_bounds _) (transparency_score_of_bounds h2)

/-- A convex combination (weights non-negative, summing to 1) of values in
`[0, 100]` stays in `[0, 100]`. -/
theorem weighted_total_bounds (w : Weights) (e s g : ℚ)
    (hwE : 0 ≤ w.E) (hwS : 0 ≤ w.S) (hwG : 0 ≤ w.G) (hsum : w.E + w.S + w.G = 1)
    (he : 0 ≤ e ∧ e ≤ 100) (hs : 0 ≤ s ∧ s ≤ 100) (hg : 0 ≤ g ∧ g ≤ 100) :
    0 ≤ weighted_total w e s g ∧ weighted_total w e s g ≤ 100 := by
  unfold weighted_total
  constructor
  · have := mul_nonneg he.1 hwE
    have := mul_nonneg hs.1 hwS
    have := mul_nonneg hg.1 hwG
    linarith
  · have hE := mul_le_mul_of_nonneg_right he.2 hwE
    have hS := mul_le_mul_of_nonneg_right hs.2 hwS
    have hG := mul_le_mul_of_nonneg_right hg.2 hwG
    nlinarith [hE, hS, hG]

/-! ## Claim C1 -/

/-- C1: for every total score `s` in `[0, 100]`, `_determine_grade` returns a
tier of the seven-tier grade system whose minimum threshold is at most `s`,
and no tier with a strictly higher threshold also has its threshold at most
`s`; the lowest tier `"C"` has threshold 0, so classification succeeds for
every such score. -/
theorem C1_grade_classifier_correct (s : ℚ) (h0 : 0 ≤ s) (h1 : s ≤ 100) :
    ∃ c : GradeCriteria,
      grade_system.lookup (_determine_grade s) = some c ∧
      c.min ≤ s ∧
      (∀ g' c', (g', c') ∈ grade_system → c.min < c'.min → ¬ c'.min ≤ s) ∧
      grade_system.lookup "C" = some ⟨0, "#FF4757", 4/10⟩ := by
  rw [determine_grade_eq]
  split_ifs with h90 h85 h80 h75 h70 h65
  · exact ⟨_, rfl, h90, fun g' c' hmem hlt => by
      fin_cases hmem <;> norm_num at hlt, rfl⟩
  · exact ⟨_, rfl, h85, fun g' c' hmem hlt => by
      fin_cases hmem <;> norm_num at hlt ⊢ <;> linarith, rfl⟩
  · exact ⟨_, rfl, h80, fun g' c' hmem hlt => by
      fin_cases hmem <;> norm_num at hlt ⊢ <;> linarith, rfl⟩
  · exact ⟨_, rfl, h75, fun g' c' hmem hlt => by
      fin_cases hmem <;> norm_num at hlt ⊢ <;> linarith, rfl⟩
  · exact ⟨_, rfl, h70, fun g' c' hmem hlt => by
      fin_cases hmem <;> norm_num at hlt ⊢ <;> linarith, rfl⟩
  · exact ⟨_, rfl, h65, fun g' c' hmem hlt => by
      fin_cases hmem <;> norm_num at hlt ⊢ <;> linarith, rfl⟩
  · exact ⟨_, rfl, h0, fun g' c' hmem hlt => by
      fin_cases hmem <;> norm_num at hlt ⊢ <;> linarith, rfl⟩

/-- Witness for C1 at the concrete score 72. -/
theorem C1_grade_classifier_correct_witness :
    (0 : ℚ) ≤ 72 ∧ (72 : ℚ) ≤ 100 ∧
      ∃ c : GradeCriteria,
        grade_system.lookup (_determine_grade 72) = some c ∧
        c.min ≤ 72 ∧
        (∀ g' c', (g', c') ∈ grade_system → c.min < c'.min → ¬ c'.min ≤ 72) ∧
        grade_system.lookup "C" = some ⟨0, "#FF4757", 4/10⟩ :=
  ⟨by norm_num, by norm_num,
   C1_grade_classifier_correct 72 (by norm_num) (by norm_num)⟩

/-! ## Claim C2 -/

/-- C2: for a valid profile (raw metrics non-negative, ratios in `[0,1]`,
survey scores in `[0,100]`), each sub-score lies in `[0, 100]`, the selected
weights (industry weights, or the fallback triple for unknown industries) sum
to 1, and the weighted total also lies in `[0, 100]`. -/
theorem C2_scores_in_range (bm : Benchmarks) (cd : CompanyData) (ind : String)
    (h : ValidCompanyData cd) :
    0 ≤ (_evaluate_environmental bm cd ind).1 ∧
      (_evaluate_environmental bm cd ind).1 ≤ 100 ∧
      0 ≤ (_evaluate_social cd ind).1 ∧ (_evaluate_social cd ind).1 ≤ 100 ∧
      0 ≤ (_evaluate_governance cd ind).1 ∧ (_evaluate_governance cd ind).1 ≤ 100 ∧
      (lookupWeights ind).E + (lookupWeights ind).S + (lookupWeights ind).G = 1 ∧
      0 ≤ weighted_total (lookupWeights ind) (_evaluate_environmental bm cd ind).1
          (_evaluate_social cd ind).1 (_evaluate_governance cd ind).1 ∧
      weighted_total (lookupWeights ind) (_evaluate_environmental bm cd ind).1
          (_evaluate_social cd ind).1 (_evaluate_governance cd ind).1 ≤ 100 := by
  obtain ⟨hc1, hc2, hc3, hren, hrec, hdiv, hacc, hcs, hdon, hidr, heth, hdis⟩ := h
  have hE := env_score_bounds bm cd ind (OptRange.getD_lower hren le_rfl)
    (OptRange.getD_lower hrec le_rfl)
  have hS := social_score_bounds cd ind (OptRange.getD_lower hdiv le_rfl)
    (OptRange.getD_lower hcs le_rfl) (OptRange.getD_lower hdon le_rfl)
  have hG := governance_score_bounds cd ind (OptRange.getD_lower hidr le_rfl)
    (OptRange.getD_lower hdis le_rfl)
  obtain ⟨hwE, hwS, hwG, hsum⟩ := lookupWeights_valid ind
  have hT := weighted_total_bounds _ _ _ _ hwE hwS hwG hsum hE hS hG
  exact ⟨hE.1, hE.2, hS.1, hS.2, hG.1, hG.2, hsum, hT.1, hT.2⟩

/-- A fully-populated valid company profile. -/
def validCompanyExample : CompanyData :=
  { basic_info := some ⟨some "대한제조", some "제조업"⟩
    environmental := some ⟨some 1000, some 2000, some 3000, some (3/10), some (8/10),
      some ["ISO14001"]⟩
    social := some ⟨some (4/10), some (2/10), some 85, some (1/100)⟩
    governance := some ⟨some (6/10), some true, some 0, some 90⟩
    compliance := some ⟨some true, some false, some true⟩
    financial := some ⟨some 500⟩ }

/-- Witness for C2 on a concrete valid profile. -/
theorem C2_scores_in_range_witness :
    ValidCompanyData validCompanyExample ∧
      (0 ≤ (_evaluate_environmental [] validCompanyExample "제조업").1 ∧
        (_evaluate_environmental [] validCompanyExample "제조업").1 ≤ 100 ∧
        0 ≤ (_evaluate_social validCompanyExample "제조업").1 ∧
        (_evaluate_social validCompanyExample "제조업").1 ≤ 100 ∧
        0 ≤ (_evaluate_governance validCompanyExample "제조업").1 ∧
        (_evaluate_governance validCompanyExample "제조업").1 ≤ 100 ∧
        (lookupWeights "제조업").E + (lookupWeights "제조업").S +
            (lookupWeights "제조업").G = 1 ∧
        0 ≤ weighted_total (lookupWeights "제조업")
            (_evaluate_environmental [] validCompanyExample "제조업").1
            (_evaluate_social validCompanyExample "제조업").1
            (_evaluate_governance validCompanyExample "제조업").1 ∧
        weighted_total (lookupWeights "제조업")
            (_evaluate_environmental [] validCompanyExample "제조업").1
            (_evaluate_social validCompanyExample "제조업").1
            (_evaluate_governance validCompanyExample "제조업").1 ≤ 100) :=
  ⟨by norm_num [ValidCompanyData, validCompanyExample, OptRange, OptNonneg],
   C2_scores_in_range [] validCompanyExample "제조업"
     (by norm_num [ValidCompanyData, validCompanyExample, OptRange, OptNonneg])⟩

/-! ## Claim C3 -/

/-- A company dict with every top-level key missing. -/
def allMissingCompany : CompanyData := ⟨none, none, none, none, none, none⟩

/-- C3 counterexample: on a failing profile the degraded result's `compliance`
dict is `{"overall": 0}`, not empty, refuting the claimed "empty compliance". -/
theorem C3_default_compliance_counterexample :
    (evaluateInner [] "2024-01-01T00:00:00" allMissingCompany).isOk = false ∧
      (evaluate_enterprise [] "2024-01-01T00:00:00" allMissingCompany).compliance ≠
        ([] : ComplianceDict) := by
  constructor
  · rfl
  · decide

/-- C3 (amended): `evaluate_enterprise` never propagates an exception: any
inner error is replaced by the default result, whose scores are all 0, grade
is the lowest tier `"C"`, compliance holds only the `overall` entry 0,
financial benefits and details are empty, and the improvement areas are the
single generic error message. -/
theorem C3_exception_boundary_amended (bm : Benchmarks) (now : String) (cd : CompanyData) :
    (∀ msg, evaluateInner bm now cd = .error msg →
      evaluate_enterprise bm now cd = _get_default_evaluation now) ∧
      (_get_default_evaluation now).scores = ⟨0, 0, 0, 0⟩ ∧
      (_get_default_evaluation now).grade = "C" ∧
      (_get_default_evaluation now).compliance = [("overall", CValue.num 0)] ∧
      (_get_default_evaluation now).financial_benefits = none ∧
      (_get_default_evaluation now).details = ⟨none, none, none⟩ ∧
      (_get_default_evaluation now).improvement_areas =
        ["데이터 오류로 평가를 완료할 수 없습니다."] := by
  refine ⟨fun msg hmsg => ?_, rfl, rfl, rfl, rfl, rfl, rfl⟩
  simp [evaluate_enterprise, hmsg]

/-- Witness for C3 (amended) on a concrete failing profile. -/
theorem C3_exception_boundary_amended_witness :
    evaluateInner [] "t0" allMissingCompany = .error "KeyError: basic_info" ∧
      evaluate_enterprise [] "t0" allMissingCompany = _get_default_evaluation "t0" :=
  ⟨rfl, (C3_exception_boundary_amended [] "t0" allMissingCompany).1
    "KeyError: basic_info" rfl⟩

/-! ## Claim C4 -/

/-- With the `environmental` block absent and a positive carbon benchmark, the
E sub-score is 30: the zero carbon total beats the benchmark (ratio 0 < 0.7,
full 30 points) while the other three sub-factors default to 0. -/
theorem env_score_missing_block (bm : Benchmarks) (cd : CompanyData) (ind : String)
    (henv : cd.environmental = none) (hbc : 0 < benchmark_carbon bm ind) :
    (_evaluate_environmental bm cd ind).1 = 30 := by
  norm_num [_evaluate_environmental, henv, emptyEnvData, carbon_ratio_of, hbc,
    carbon_score_of, renewable_score_of, recycling_score_of, cert_score_of]

/-- When `basic_info` holds a name and an industry, the inner evaluation
always succeeds, with the record spelled out. -/
theorem evaluateInner_eq_ok (bm : Benchmarks) (now nm ind : String) (cd : CompanyData)
    (hbi : cd.basic_info = some ⟨some nm, some ind⟩) :
    ∃ c, grade_system.lookup (_determine_grade (weighted_total (lookupWeights ind)
        (_evaluate_environmental bm cd ind).1 (_evaluate_social cd ind).1
        (_evaluate_governance cd ind).1)) = some c ∧
      evaluateInner bm now cd = .ok
        { evaluation_date := now
          company := nm
          industry := ind
          scores := { E := round1 (_evaluate_environmental bm cd ind).1
                      S := round1 (_evaluate_social cd ind).1
                      G := round1 (_evaluate_governance cd ind).1
                      total := round1 (weighted_total (lookupWeights ind)
                        (_evaluate_environmental bm cd ind).1 (_evaluate_social cd ind).1
                        (_evaluate_governance cd ind).1) }
          details := { E := some (_evaluate_environmental bm cd ind).2
                       S := some (_evaluate_social cd ind).2
                       G := some (_evaluate_governance cd ind).2 }
          grade := _determine_grade (weighted_total (lookupWeights ind)
            (_evaluate_environmental bm cd ind).1 (_evaluate_social cd ind).1
            (_evaluate_governance cd ind).1)
          financial_benefits := some
            { grade := _determine_grade (weighted_total (lookupWeights ind)
                (_evaluate_environmental bm cd ind).1 (_evaluate_social cd ind).1
                (_evaluate_governance cd ind).1)
              base_rate := 35/10
              discount_rate := c.rate_discount
              final_rate := 35/10 - c.rate_discount
              annual_savings :=
                ((cd.financial.getD ⟨none⟩).target_loan_amount.getD 1000) *
                  c.rate_discount / 100
              loan_amount := (cd.financial.getD ⟨none⟩).target_loan_amount.getD 1000 }
          compliance := _evaluate_compliance cd
          improvement_areas := _identify_improvement_areas
            (_evaluate_environmental bm cd ind).1 (_evaluate_social cd ind).1
            (_evaluate_governance cd ind).1 } := by
  obtain ⟨c, hc⟩ := determine_grade_mem (weighted_total (lookupWeights ind)
    (_evaluate_environmental bm cd ind).1 (_evaluate_social cd ind).1
    (_evaluate_governance cd ind).1)
  refine ⟨c, hc, ?_⟩
  simp only [evaluateInner, hbi, _calculate_financial_benefits, hc]

/-- A profile with valid basic info but no `environmental` block at all. -/
def noEnvCompany : CompanyData :=
  { basic_info := some ⟨some "무환경", some "제조업"⟩
    environmental := none
    social := none
    governance := none
    compliance := none
    financial := none }

/-- C4 counterexample: with the `environmental` block entirely absent the
evaluation succeeds, but the E sub-score is 30, not the claimed 0. -/
theorem C4_missing_env_counterexample :
    noEnvCompany.environmental = none ∧
      (evaluateInner [] "2024-01-01T00:00:00" noEnvCompany).isOk = true ∧
      (evaluate_enterprise [] "2024-01-01T00:00:00" noEnvCompany).scores.E = 30 ∧
      (evaluate_enterprise [] "2024-01-01T00:00:00" noEnvCompany).scores.E ≠ 0 := by
  refine ⟨rfl, ?_, ?_, ?_⟩ <;>
    · norm_num [evaluate_enterprise, evaluateInner, noEnvCompany, lookupWeights,
        industry_weights, _evaluate_environmental, _evaluate_social, _evaluate_governance,
        emptyEnvData, emptySocialData, emptyGovData, benchmark_carbon, weighted_total,
        carbon_ratio_of, carbon_score_of, renewable_score_of, recycling_score_of,
        cert_score_of, diversity_score_of, safety_score_of, satisfaction_score_of,
        contribution_score_of, independence_score_of, esg_gov_score_of, ethics_score_of,
        transparency_score_of, _determine_grade, determineGradeAux, grade_system,
        _evaluate_compliance, emptyComplianceData, _calculate_financial_benefits,
        _identify_improvement_areas, round1, roundHalfEven, List.lookup]
      first
      | rfl
      | decide

/-- C4 (amended): a profile whose `environmental` block is entirely absent
(but with complete basic info, and a positive — possibly defaulted — carbon
benchmark for its industry) evaluates without raising, every environmental
raw input defaults to zero, and the resulting E sub-score is 30 (the
zero-carbon total scores the full 30 benchmark points; the other three
environmental sub-factors contribute 0). -/
theorem C4_missing_env_amended (bm : Benchmarks) (now nm ind : String) (cd : CompanyData)
    (hbi : cd.basic_info = some ⟨some nm, some ind⟩)
    (henv : cd.environmental = none)
    (hbc : 0 < benchmark_carbon bm ind) :
    (evaluateInner bm now cd).isOk = true ∧
      (evaluate_enterprise bm now cd).scores.E = 30 := by
  obtain ⟨c, hc, hok⟩ := evaluateInner_eq_ok bm now nm ind cd hbi
  have hE := env_score_missing_block bm cd ind henv hbc
  constructor
  · rw [hok]; rfl
  · simp only [evaluate_enterprise, hok, hE]
    norm_num [round1, roundHalfEven, round_eq]

/-- Witness for C4 (amended) on the concrete no-environment profile. -/
theorem C4_missing_env_amended_witness :
    noEnvCompany.basic_info = some ⟨some "무환경", some "제조업"⟩ ∧
      noEnvCompany.environmental = none ∧
      0 < benchmark_carbon [] "제조업" ∧
      ((evaluateInner [] "t0" noEnvCompany).isOk = true ∧
        (evaluate_enterprise [] "t0" noEnvCompany).scores.E = 30) :=
  ⟨rfl, rfl, by decide,
   C4_missing_env_amended [] "t0" "무환경" "제조업" noEnvCompany rfl rfl (by decide)⟩

/-! ## Claim C5 -/

/-- C5 counterexample: with the `social` block missing, the raw accident rate
actually used (and echoed into the safety detail) is 0.5, not the claimed
zero-default — and it matters: the safety score is 5, while a 0 default would
score 25. -/
theorem C5_default_counterexample :
    (_evaluate_social allMissingCompany "제조업").2.safety.ratio = 1/2 ∧
      (_evaluate_social allMissingCompany "제조업").2.safety.ratio ≠ 0 ∧
      (_evaluate_social allMissingCompany "제조업").2.safety.score = 5 ∧
      safety_score_of 0 = 25 := by
  norm_num [_evaluate_social, allMissingCompany, emptySocialData, diversity_score_of,
    safety_score_of, satisfaction_score_of, contribution_score_of]

/-- C5 (amended): the three scorers are total over any well-typed input, and
every missing raw input defaults to a domain-specific zero-equivalent (0 for
numbers, False for booleans, the empty list for collections) — with the single
exception of `accident_rate`, whose missing-value default is 0.5. -/
theorem C5_missing_input_defaults_amended (bm : Benchmarks) (cd : CompanyData) (ind : String)
    (hs : cd.social.getD emptySocialData = emptySocialData)
    (hg : cd.governance.getD emptyGovData = emptyGovData)
    (he : cd.environmental.getD emptyEnvData = emptyEnvData) :
    (_evaluate_social cd ind).1 =
        diversity_score_of 0 + safety_score_of (5/10) + satisfaction_score_of 0 +
          contribution_score_of 0 ∧
      (_evaluate_social cd ind).2.safety.ratio = 5/10 ∧
      (_evaluate_social cd ind).2.diversity.ratio = 0 ∧
      (_evaluate_governance cd ind).1 =
        independence_score_of 0 + esg_gov_score_of false + ethics_score_of 0 +
          transparency_score_of 0 ∧
      (_evaluate_governance cd ind).2.esg_governance.has_committee = false ∧
      (_evaluate_environmental bm cd ind).1 =
        carbon_score_of (carbon_ratio_of (0 + 0 + 0) (benchmark_carbon bm ind)) +
          renewable_score_of 0 + recycling_score_of 0 + cert_score_of [] ∧
      (_evaluate_environmental bm cd ind).2.certifications.list = [] := by
  simp only [_evaluate_social, _evaluate_governance, _evaluate_environmental]
  rw [hs, hg, he]
  simp only [emptySocialData, emptyGovData, emptyEnvData, Option.getD_none]
  exact ⟨trivial, trivial, trivial, trivial, trivial, trivial, trivial⟩

/-- Witness for C5 (amended) on the all-missing profile. -/
theorem C5_missing_input_defaults_amended_witness :
    allMissingCompany.social.getD emptySocialData = emptySocialData ∧
      allMissingCompany.governance.getD emptyGovData = emptyGovData ∧
      allMissingCompany.environmental.getD emptyEnvData = emptyEnvData ∧
      ((_evaluate_social allMissingCompany "제조업").1 =
          diversity_score_of 0 + safety_score_of (5/10) + satisfaction_score_of 0 +
            contribution_score_of 0 ∧
        (_evaluate_social allMissingCompany "제조업").2.safety.ratio = 5/10 ∧
        (_evaluate_social allMissingCompany "제조업").2.diversity.ratio = 0 ∧
        (_evaluate_governance allMissingCompany "제조업").1 =
          independence_score_of 0 + esg_gov_score_of false + ethics_score_of 0 +
            transparency_score_of 0 ∧
        (_evaluate_governance allMissingCompany "제조업").2.esg_governance.has_committee
            = false ∧
        (_evaluate_environmental [] allMissingCompany "제조업").1 =
          carbon_score_of (carbon_ratio_of (0 + 0 + 0) (benchmark_carbon [] "제조업")) +
            renewable_score_of 0 + recycling_score_of 0 + cert_score_of [] ∧
        (_evaluate_environmental [] allMissingCompany "제조업").2.certifications.list
            = []) :=
  ⟨rfl, rfl, rfl,
   C5_missing_input_defaults_amended [] allMissingCompany "제조업" rfl rfl rfl⟩

/-! ## Claim C6 -/

/-- C6 counterexample: two calls on the same profile at different wall-clock
instants produce different result records (the embedded `evaluation_date`
differs). -/
theorem C6_idempotence_counterexample :
    evaluate_enterprise [] "2024-01-01T00:00:00" allMissingCompany ≠
      evaluate_enterprise [] "2024-01-01T00:00:01" allMissingCompany := by
  decide

/-- The result record with its `evaluation_date` cleared. -/
def stripDate (r : EvalResult) : EvalResult := { r with evaluation_date := "" }

/-- C6 (amended): evaluation is deterministic apart from the embedded
timestamp — two evaluations of the same profile agree on every field except
`evaluation_date`. -/
theorem C6_idempotence_amended (bm : Benchmarks) (t1 t2 : String) (cd : CompanyData) :
    stripDate (evaluate_enterprise bm t1 cd) = stripDate (evaluate_enterprise bm t2 cd) := by
  rcases hbi : cd.basic_info with _ | ⟨nameO, indO⟩
  · simp [evaluate_enterprise, evaluateInner, hbi, _get_default_evaluation, stripDate]
  · rcases indO with _ | ind
    · simp [evaluate_enterprise, evaluateInner, hbi, _get_default_evaluation, stripDate]
    · rcases nameO with _ | nm
      · simp [evaluate_enterprise, evaluateInner, hbi, _get_default_evaluation, stripDate]
      · obtain ⟨c, hc, hok1⟩ := evaluateInner_eq_ok bm t1 nm ind cd hbi
        obtain ⟨c', hc', hok2⟩ := evaluateInner_eq_ok bm t2 nm ind cd hbi
        rw [hc] at hc'
        obtain rfl : c = c' := Option.some.inj hc'
        simp [evaluate_enterprise, hok1, hok2, stripDate]

/-! ## Claim C7 -/

/-- C7: for the manufacturing industry (weights 0.45/0.30/0.25) with
sub-scores E=80, S=70, G=60, the aggregated total is exactly 72, and the grade
ladder assigns `"B"`, the tier with minimum 70 (72 qualifies for ≥ 70 but not
for ≥ 75). -/
theorem C7_manufacturing_scenario :
    lookupWeights "제조업" = ⟨45/100, 30/100, 25/100⟩ ∧
      weighted_total (lookupWeights "제조업") 80 70 60 = 72 ∧
      _determine_grade 72 = "B" ∧
      grade_system.lookup "B" = some ⟨70, "#0046FF", 12/10⟩ ∧
      (70 : ℚ) ≤ 72 ∧ ¬ (75 : ℚ) ≤ 72 := by
  have h : lookupWeights "제조업" = ⟨45/100, 30/100, 25/100⟩ := rfl
  refine ⟨h, ?_, ?_, rfl, by norm_num, by norm_num⟩
  · rw [h]; norm_num [weighted_total]
  · rw [determine_grade_eq]; norm_num

/-! ## Claim C8 -/

/-- C8: for the tier with rate discount 1.2 (grade `"B"`) and target loan
amount 1000, the financial benefits are annual savings 1000 × 1.2 / 100 = 12
and final rate 3.5 − 1.2 = 2.3. -/
theorem C8_financial_benefits (cd : CompanyData)
    (hl : (cd.financial.getD ⟨none⟩).target_loan_amount.getD 1000 = 1000) :
    ∃ c, grade_system.lookup "B" = some c ∧ c.rate_discount = 12/10 ∧
      _calculate_financial_benefits "B" cd = .ok
        { grade := "B", base_rate := 35/10, discount_rate := 12/10,
          final_rate := 23/10, annual_savings := 12, loan_amount := 1000 } := by
  refine ⟨⟨70, "#0046FF", 12/10⟩, rfl, rfl, ?_⟩
  have h : grade_system.lookup "B" = some ⟨70, "#0046FF", 12/10⟩ := rfl
  simp only [_calculate_financial_benefits, h, hl]
  norm_num

/-- A profile whose only content is a target loan amount of 1000. -/
def loanCompany : CompanyData :=
  { basic_info := none, environmental := none, social := none, governance := none,
    compliance := none, financial := some ⟨some 1000⟩ }

/-- Witness for C8 at the concrete loan amount 1000. -/
theorem C8_financial_benefits_witness :
    (loanCompany.financial.getD ⟨none⟩).target_loan_amount.getD 1000 = 1000 ∧
      ∃ c, grade_system.lookup "B" = some c ∧ c.rate_discount = 12/10 ∧
        _calculate_financial_benefits "B" loanCompany = .ok
          { grade := "B", base_rate := 35/10, discount_rate := 12/10,
            final_rate := 23/10, annual_savings := 12, loan_amount := 1000 } :=
  ⟨rfl, C8_financial_benefits loanCompany rfl⟩

/-! ## Claim C9 -/

/-- C9: every positively-contributing raw input is monotone: raising that
input alone never lowers its sub-factor score. Covers the ratio inputs
(renewable energy, recycling, diversity, board independence), the scaled
survey inputs (customer satisfaction, disclosure), the donation ratio, the
certification count, and the ESG-committee flag. -/
theorem C9_positive_inputs_monotone (r1 r2 : ℚ) (h : r1 ≤ r2)
    (l1 l2 : List String) (hl : l1.length ≤ l2.length) (b1 b2 : Bool) (hb : b1 ≤ b2) :
    renewable_score_of r1 ≤ renewable_score_of r2 ∧
      recycling_score_of r1 ≤ recycling_score_of r2 ∧
      diversity_score_of r1 ≤ diversity_score_of r2 ∧
      independence_score_of r1 ≤ independence_score_of r2 ∧
      satisfaction_score_of r1 ≤ satisfaction_score_of r2 ∧
      contribution_score_of r1 ≤ contribution_score_of r2 ∧
      transparency_score_of r1 ≤ transparency_score_of r2 ∧
      cert_score_of l1 ≤ cert_score_of l2 ∧
      esg_gov_score_of b1 ≤ esg_gov_score_of b2 := by
  refine ⟨?_, ?_, ?_, ?_, ?_, ?_, ?_, ?_, ?_⟩
  · exact min_le_min le_rfl (mul_le_mul_of_nonneg_right h (by norm_num))
  · exact min_le_min le_rfl (mul_le_mul_of_nonneg_right h (by norm_num))
  · exact min_le_min le_rfl (mul_le_mul_of_nonneg_right h (by norm_num))
  · exact min_le_min le_rfl (mul_le_mul_of_nonneg_right h (by norm_num))
  · exact min_le_min le_rfl (mul_le_mul_of_nonneg_right
      (div_le_div_of_nonneg_right h (by norm_num)) (by norm_num))
  · exact min_le_min le_rfl (mul_le_mul_of_nonneg_right h (by norm_num))
  · exact min_le_min le_rfl (mul_le_mul_of_nonneg_right
      (div_le_div_of_nonneg_right h (by norm_num)) (by norm_num))
  · exact min_le_min le_rfl (mul_le_mul_of_nonneg_right (by exact_mod_cast hl) (by norm_num))
  · cases b1 <;> cases b2
    · norm_num [esg_gov_score_of]
    · norm_num [esg_gov_score_of]
    · exact absurd hb (by decide)
    · norm_num [esg_gov_score_of]

/-- Witness for C9 at concrete increasing inputs. -/
theorem C9_positive_inputs_monotone_witness :
    (0 : ℚ) ≤ 1 ∧ ([] : List String).length ≤ ["ISO14001"].length ∧ false ≤ true ∧
      (renewable_score_of 0 ≤ renewable_score_of 1 ∧
        recycling_score_of 0 ≤ recycling_score_of 1 ∧
        diversity_score_of 0 ≤ diversity_score_of 1 ∧
        independence_score_of 0 ≤ independence_score_of 1 ∧
        satisfaction_score_of 0 ≤ satisfaction_score_of 1 ∧
        contribution_score_of 0 ≤ contribution_score_of 1 ∧
        transparency_score_of 0 ≤ transparency_score_of 1 ∧
        cert_score_of [] ≤ cert_score_of ["ISO14001"] ∧
        esg_gov_score_of false ≤ esg_gov_score_of true) :=
  ⟨by norm_num, by norm_num, by decide,
   C9_positive_inputs_monotone 0 1 (by norm_num) [] ["ISO14001"] (by norm_num)
     false true (by decide)⟩

/-! ## Claim C10 -/

/-- C10: the carbon sub-factor never divides by zero: an absent industry
benchmark (or an absent `avg_carbon_intensity` key) defaults to 10000, and a
non-positive benchmark short-circuits the ratio to 1, which scores 10 on the
carbon ladder. -/
theorem C10_carbon_benchmark_safety (bm : Benchmarks) (ind : String) (cd : CompanyData) :
    (List.lookup ind bm = none → benchmark_carbon bm ind = 10000) ∧
      (((List.lookup ind bm).getD ⟨none⟩).avg_carbon_intensity = none →
        benchmark_carbon bm ind = 10000) ∧
      (∀ t : ℚ, ¬ benchmark_carbon bm ind > 0 →
        carbon_ratio_of t (benchmark_carbon bm ind) = 1) ∧
      (¬ benchmark_carbon bm ind > 0 →
        (_evaluate_environmental bm cd ind).2.carbon_emission.score = 10) ∧
      carbon_score_of 1 = 10 := by
  refine ⟨?_, ?_, ?_, ?_, by norm_num [carbon_score_of]⟩
  · intro h; simp [benchmark_carbon, h]
  · intro h; simp [benchmark_carbon, h]
  · intro t h; simp [carbon_ratio_of, h]
  · intro h
    simp only [_evaluate_environmental, carbon_ratio_of, h, if_false]
    norm_num [carbon_score_of]

/-- A benchmark table with a non-positive carbon intensity entry. -/
def negBench : Benchmarks := [("음수업종", ⟨some (-1)⟩)]

/-- Witness for C10: the default on a missing benchmark and the ratio-1
short-circuit on a non-positive benchmark, at concrete inputs. -/
theorem C10_carbon_benchmark_safety_witness :
    List.lookup "미지업종" ([] : Benchmarks) = none ∧
      benchmark_carbon [] "미지업종" = 10000 ∧
      ¬ benchmark_carbon negBench "음수업종" > 0 ∧
      carbon_ratio_of 5 (benchmark_carbon negBench "음수업종") = 1 ∧
      (_evaluate_environmental negBench allMissingCompany "음수업종").2.carbon_emission.score
          = 10 :=
  ⟨rfl,
   (C10_carbon_benchmark_safety [] "미지업종" allMissingCompany).1 rfl,
   by decide,
   (C10_carbon_benchmark_safety negBench "음수업종" allMissingCompany).2.2.1 5 (by decide),
   (C10_carbon_benchmark_safety negBench "음수업종" allMissingCompany).2.2.2.1 (by decide)⟩
